import Mathlib

/-!
Shallow embedding of `src/nifpga/niRIO.py`, a thin status-checked ctypes
binding around the NI FPGA Interface C API, together with the parts of the
status taxonomy that the specification describes.  Enumerations, lookup
tables and the constructor's platform-specific error path are transcribed
directly from the source; ctypes storage representations are modelled as a
small inductive type whose width/character attributes follow the ctypes
documentation.
-/

namespace NiFpga

/-- Model of the ctypes storage representations used by `niRIO.py`:
each constructor is one of the ctypes classes the source mentions, and
`pointer t` models `ctypes.POINTER(t)`. -/
inductive CType where
  | c_uint8
  | c_int8
  | c_int16
  | c_uint16
  | c_int32
  | c_uint32
  | c_int64
  | c_uint64
  | c_float
  | c_double
  | c_void_p
  | c_char_p
  | pointer : CType → CType
deriving DecidableEq, Repr

/-- Bit width of a ctype per the ctypes documentation; `none` for the
pointer-sized types whose width is platform dependent. -/
def CType.bitWidth : CType → Option Nat
  | .c_uint8 => some 8
  | .c_int8 => some 8
  | .c_int16 => some 16
  | .c_uint16 => some 16
  | .c_int32 => some 32
  | .c_uint32 => some 32
  | .c_int64 => some 64
  | .c_uint64 => some 64
  | .c_float => some 32
  | .c_double => some 64
  | .c_void_p => none
  | .c_char_p => none
  | .pointer _ => none

/-- Whether the ctype is a floating-point representation. -/
def CType.isFloat : CType → Bool
  | .c_float => true
  | .c_double => true
  | _ => false

/-- Whether the ctype is a signed integer representation. -/
def CType.isSignedInt : CType → Bool
  | .c_int8 => true
  | .c_int16 => true
  | .c_int32 => true
  | .c_int64 => true
  | _ => false

/-- Whether the ctype is a pointer-sized opaque handle or pointer. -/
def CType.isPointerSized : CType → Bool
  | .c_void_p => true
  | .c_char_p => true
  | .pointer _ => true
  | _ => false

/-- `DataType` enumeration from `niRIO.py` (the Logical Data Kinds). -/
inductive DataType where
  | Bool
  | I8
  | U8
  | I16
  | U16
  | I32
  | U32
  | I64
  | U64
  | Sgl
  | Dbl
  | Fxp
  | Cluster
deriving DecidableEq, Fintype, Repr

/-- Numeric values of the `DataType` enum members in the source. -/
def DataType.value : DataType → Nat
  | .Bool => 1
  | .I8 => 2
  | .U8 => 3
  | .I16 => 4
  | .U16 => 5
  | .I32 => 6
  | .U32 => 7
  | .I64 => 8
  | .U64 => 9
  | .Sgl => 10
  | .Dbl => 11
  | .Fxp => 12
  | .Cluster => 13

/-- The `_datatype_ctype` dict built inside `DataType._return_ctype`,
as an association list in source order. -/
def _datatype_ctype : List (DataType × CType) :=
  [(.Bool, .c_uint8),
   (.I8, .c_int8),
   (.U8, .c_uint8),
   (.I16, .c_int16),
   (.U16, .c_uint16),
   (.I32, .c_int32),
   (.U32, .c_uint32),
   (.I64, .c_int64),
   (.U64, .c_uint64),
   (.Sgl, .c_float),
   (.Dbl, .c_double),
   (.Fxp, .c_uint32),
   (.Cluster, .c_uint32)]

/-- `DataType._return_ctype`: dict lookup; `none` models a `KeyError`. -/
def DataType._return_ctype (d : DataType) : Option CType :=
  _datatype_ctype.lookup d

/-- `DataType.isSigned`, transcribed from the or-chain in the source.
Its result type is `Bool`, inferred from the branches. -/
def DataType.isSigned (d : DataType) :=
  if d = DataType.I8
     ∨ d = DataType.I16
     ∨ d = DataType.I32
     ∨ d = DataType.I64
     ∨ d = DataType.Sgl
     ∨ d = DataType.Dbl then
    true
  else
    false

/-- `FifoPropertyType` enumeration from `niRIO.py`. -/
inductive FifoPropertyType where
  | I32
  | U32
  | I64
  | U64
  | Ptr
deriving DecidableEq, Fintype, Repr

/-- The `_propertyType_ctype` dict built inside
`FifoPropertyType._return_ctype`, in source order. -/
def _propertyType_ctype : List (FifoPropertyType × CType) :=
  [(.I32, .c_int32),
   (.U32, .c_uint32),
   (.I64, .c_int64),
   (.U64, .c_uint64),
   (.Ptr, .c_void_p)]

/-- `FifoPropertyType._return_ctype`: dict lookup; `none` models a
`KeyError`. -/
def FifoPropertyType._return_ctype (t : FifoPropertyType) : Option CType :=
  _propertyType_ctype.lookup t

/-- `FifoProperty` enumeration from `niRIO.py`. -/
inductive FifoProperty where
  | BytesPerElement
  | BufferAllocationGranularityElements
  | BufferSizeElements
  | MirroredElements
  | DmaBufferType
  | DmaBuffer
  | FlowControl
  | ElementsCurrentlyAcquired
  | PreferredNumaNode
deriving DecidableEq, Fintype, Repr

/-- Numeric values of the `FifoProperty` enum members in the source. -/
def FifoProperty.value : FifoProperty → Nat
  | .BytesPerElement => 1
  | .BufferAllocationGranularityElements => 2
  | .BufferSizeElements => 3
  | .MirroredElements => 4
  | .DmaBufferType => 5
  | .DmaBuffer => 6
  | .FlowControl => 7
  | .ElementsCurrentlyAcquired => 8
  | .PreferredNumaNode => 9

/-- `FlowControl` enumeration from `niRIO.py`. -/
inductive FlowControl where
  | DisableFlowControl
  | EnableFlowControl
deriving DecidableEq, Fintype, Repr

/-- Numeric values of the `FlowControl` enum members in the source. -/
def FlowControl.value : FlowControl → Nat
  | .DisableFlowControl => 1
  | .EnableFlowControl => 2

/-- `DmaBufferType` enumeration from `niRIO.py`.  The source member
`AllocatedByRIO` is spelled `AllocatedByRio` here. -/
inductive DmaBufferType where
  | AllocatedByRio
  | AllocatedByUser
deriving DecidableEq, Fintype, Repr

/-- Numeric values of the `DmaBufferType` enum members in the source. -/
def DmaBufferType.value : DmaBufferType → Nat
  | .AllocatedByRio => 1
  | .AllocatedByUser => 2

/-- `_fifo_properties_to_types` dict from `niRIO.py`, in source order. -/
def _fifo_properties_to_types : List (FifoProperty × FifoPropertyType) :=
  [(.BytesPerElement, .U32),
   (.BufferAllocationGranularityElements, .U32),
   (.BufferSizeElements, .U64),
   (.MirroredElements, .U64),
   (.DmaBufferType, .I32),
   (.DmaBuffer, .Ptr),
   (.FlowControl, .I32),
   (.ElementsCurrentlyAcquired, .U64),
   (.PreferredNumaNode, .I32)]

/-- Lookup in the property-to-kind table; `none` models a `KeyError`. -/
def fifoPropertyKind (p : FifoProperty) : Option FifoPropertyType :=
  _fifo_properties_to_types.lookup p

/-- `FpgaViState` enumeration from `niRIO.py`. -/
inductive FpgaViState where
  | NotRunning
  | Invalid
  | Running
  | NaturallyStopped
deriving DecidableEq, Fintype, Repr

/-- Numeric values of the `FpgaViState` enum members in the source. -/
def FpgaViState.value : FpgaViState → Nat
  | .NotRunning => 0
  | .Invalid => 1
  | .Running => 2
  | .NaturallyStopped => 3

/-- `_SessionType = ctypes.c_uint32`. -/
def _SessionType : CType := .c_uint32

/-- `_IrqContextType = ctypes.c_void_p`. -/
def _IrqContextType : CType := .c_void_p

/-- Module-level constant from `niRIO.py`. -/
def OPEN_ATTRIBUTE_NO_RUN : Nat := 1

/-- Module-level constant from `niRIO.py`. -/
def OPEN_ATTRIBUTE_BITFILE_PATH_IS_UTF8 : Nat := 2

/-- Module-level constant from `niRIO.py`. -/
def RUN_ATTRIBUTE_WAIT_UNTIL_DONE : Nat := 1

/-- Module-level constant from `niRIO.py`. -/
def CLOSE_ATTRIBUTE_NO_RESET_IF_LAST_SESSION : Nat := 1

/-- Module-level constant from `niRIO.py` (`0xffffffff`). -/
def INFINITE_TIMEOUT : Nat := 0xffffffff

/-- `NamedArgtype(name, argtype)` record from `statuscheckedlibrary`,
as used by `niRIO.py`. -/
structure NamedArgtype where
  name : String
  argtype : CType
deriving DecidableEq, Repr

/-- `LibraryFunctionInfo(pretty_name, name_in_library, named_argtypes)`
record from `statuscheckedlibrary`, as used by `niRIO.py`. -/
structure LibraryFunctionInfo where
  pretty_name : String
  name_in_library : String
  named_argtypes : List NamedArgtype
deriving DecidableEq, Repr

/-- The `library_function_infos` list built in the binding constructor,
transcribed from the source. -/
def library_function_infos : List LibraryFunctionInfo :=
  [⟨"Route_Signal", "niFlexRio_RouteSignal",
    [⟨"session", _SessionType⟩,
     ⟨"source", .c_char_p⟩,
     ⟨"destination", .c_char_p⟩,
     ⟨"routeTicket", .pointer .c_int32⟩]⟩]

/-- The logical library name the constructor passes to the loader. -/
def niRIO_library_name : String := "NIFLEXRIOAPI"

/-- The Windows-branch remediation prefix of the constructor's
re-raised `LibraryNotFoundError`; the original exception text is
appended to it.  Adjacent Python string literals are concatenated. -/
def windowsRemediation : String :=
  "Unable to find NiFpga.dll on your system, ensure you have installed the relevent RIO distribution for your device. Search for your product here: http://www.ni.com/downloads/ni-drivers/ Original Exception: "

/-- The Linux-branch remediation prefix. -/
def linuxRemediation : String :=
  "Unable to find libNiFpga.so on your system, If you are on desktop linux, ensure you have installed the latest RIO Linux distribution for your product, such as https://www.ni.com/en-us/support/downloads/drivers/download.ni-linux-device-drivers.html If you are on a Linux RT embedded target (cRIO, sbRIO, FlexRIO, Industrial Controller, etc) install NI-RIO to your target though MAX following these instructions: https://www.ni.com/getting-started/set-up-hardware/compactrio/controller-software Original Exception: "

/-- The Darwin-branch remediation prefix. -/
def darwinRemediation : String :=
  "Unable to find NiFpga.Framework on your system, Sorry we don\x27t yet support using RIO Devices on OSX, contact your sales person for the latest information on OSX support. Original Exception: "

/-- Message of the `LibraryNotFoundError` re-raised by the `except`
block of the constructor.  `system` is `platform.system().lower()` and
`orig` is `str(e)`, the text of the original failure.  The final bare
`raise` re-raises the original exception unchanged, so in that branch
the message is `orig` itself. -/
def initErrorMessage (system orig : String) : String :=
  if system = "windows" then windowsRemediation ++ orig
  else if system = "linux" then linuxRemediation ++ orig
  else if system = "darwin" then darwinRemediation ++ orig
  else orig

/-- Outcome of constructing the binding object. -/
inductive InitOutcome where
  | ok
  | libraryNotFound (message : String)
deriving DecidableEq, Repr

/-- The constructor: when the loader locates the library, construction
succeeds; when it raises `LibraryNotFoundError`, the constructor
re-raises with the platform-specific message. -/
def niRIO_init (loaded : Bool) (system orig : String) : InitOutcome :=
  if loaded then .ok else .libraryNotFound (initErrorMessage system orig)

/-- Bands of the status taxonomy. -/
inductive StatusBand where
  | Success
  | Warning
  | Error
deriving DecidableEq, Repr

/-- Modelled from the spec: the status-code classification of the
`statuscheckedlibrary` module, which is not present under `src/`.
Per the spec, a signed status code is classified as Success when the
code equals 0, Warning when it is greater than 0, and Error when it is
less than 0. -/
def classify (code : Int) : StatusBand :=
  if code = 0 then .Success
  else if 0 < code then .Warning
  else .Error

/-- Appending the same string to strings of different lengths yields
different strings. -/
lemma append_ne_append_right (a b c : String) (h : a.length ≠ b.length) :
    a ++ c ≠ b ++ c := by
  intro he
  have h2 := congrArg String.length he
  rw [String.length_append, String.length_append] at h2
  omega

/-- An infix of a string stays an infix after appending on the right. -/
lemma infix_data_append (l : List Char) (a b : String) (h : l <:+: a.data) :
    l <:+: (a ++ b).data := by
  rcases h with ⟨s, t, hst⟩
  refine ⟨s, t ++ b.data, ?_⟩
  rw [String.data_append, ← hst]
  simp [List.append_assoc]

/-- The windows branch of the constructor's except block. -/
lemma initErrorMessage_windows (orig : String) :
    initErrorMessage "windows" orig = windowsRemediation ++ orig := by
  simp [initErrorMessage]

/-- The linux branch of the constructor's except block. -/
lemma initErrorMessage_linux (orig : String) :
    initErrorMessage "linux" orig = linuxRemediation ++ orig := by
  simp [initErrorMessage]

/-- The darwin branch of the constructor's except block. -/
lemma initErrorMessage_darwin (orig : String) :
    initErrorMessage "darwin" orig = darwinRemediation ++ orig := by
  simp [initErrorMessage]

set_option maxRecDepth 16384 in
/-- Claim C1: the constructor's Library-Not-Found handler has exactly
three recognized platform branches (windows, linux, darwin); each
branch's message is its platform remediation text followed by the
original failure text, the three messages differ pairwise, each
branch's message names the platform's expected artifact
(`NiFpga.dll`, `libNiFpga.so`, `NiFpga.Framework`), and each message
includes the original failure text (as a suffix). -/
theorem platform_branch_messages (orig : String) :
    initErrorMessage "windows" orig = windowsRemediation ++ orig ∧
    initErrorMessage "linux" orig = linuxRemediation ++ orig ∧
    initErrorMessage "darwin" orig = darwinRemediation ++ orig ∧
    initErrorMessage "windows" orig ≠ initErrorMessage "linux" orig ∧
    initErrorMessage "windows" orig ≠ initErrorMessage "darwin" orig ∧
    initErrorMessage "linux" orig ≠ initErrorMessage "darwin" orig ∧
    "NiFpga.dll".data <:+: (initErrorMessage "windows" orig).data ∧
    "libNiFpga.so".data <:+: (initErrorMessage "linux" orig).data ∧
    "NiFpga.Framework".data <:+: (initErrorMessage "darwin" orig).data ∧
    orig.data <:+ (initErrorMessage "windows" orig).data ∧
    orig.data <:+ (initErrorMessage "linux" orig).data ∧
    orig.data <:+ (initErrorMessage "darwin" orig).data := by
  have hw := initErrorMessage_windows orig
  have hlen1 : windowsRemediation.length ≠ linuxRemediation.length := by decide
  have hlen2 : windowsRemediation.length ≠ darwinRemediation.length := by decide
  have hlen3 : linuxRemediation.length ≠ darwinRemediation.length := by decide
  have hl := initErrorMessage_linux orig
  have hd := initErrorMessage_darwin orig
  refine ⟨hw, hl, hd, ?_, ?_, ?_, ?_, ?_, ?_, ?_, ?_, ?_⟩
  · rw [hw, hl]; exact append_ne_append_right _ _ _ hlen1
  · rw [hw, hd]; exact append_ne_append_right _ _ _ hlen2
  · rw [hl, hd]; exact append_ne_append_right _ _ _ hlen3
  · rw [hw]; exact infix_data_append _ _ _ (by decide)
  · rw [hl]; exact infix_data_append _ _ _ (by decide)
  · rw [hd]; exact infix_data_append _ _ _ (by decide)
  · rw [hw, String.data_append]; exact ⟨windowsRemediation.data, rfl⟩
  · rw [hl, String.data_append]; exact ⟨linuxRemediation.data, rfl⟩
  · rw [hd, String.data_append]; exact ⟨darwinRemediation.data, rfl⟩

/-- Claim C2 counterexample: on an unrecognized platform (here
`"sunos"`) the constructor's final bare `raise` re-raises the original
generic Library-Not-Found condition unchanged: the message is exactly
the original failure text, not an "unsupported platform" variant. -/
theorem unsupported_platform_cex :
    initErrorMessage "sunos" "boom" = "boom" ∧
    niRIO_init false "sunos" "boom" = InitOutcome.libraryNotFound "boom" := by
  decide

/-- Claim C2 (amended): on a platform whose system name is none of
windows, linux, or darwin, construction with an unlocatable library
re-raises the original Library-Not-Found condition unchanged (the
generic not-found error); no "unsupported platform" variant exists. -/
theorem unrecognized_platform_reraises (system orig : String)
    (h1 : system ≠ "windows") (h2 : system ≠ "linux") (h3 : system ≠ "darwin") :
    niRIO_init false system orig = InitOutcome.libraryNotFound orig := by
  have hm : initErrorMessage system orig = orig := by
    simp only [initErrorMessage]
    rw [if_neg h1, if_neg h2, if_neg h3]
  rw [show niRIO_init false system orig
        = InitOutcome.libraryNotFound (initErrorMessage system orig) from rfl, hm]

/-- Witness for the amended C2 at a concrete unrecognized platform. -/
theorem unrecognized_platform_reraises_witness :
    niRIO_init false "freebsd" "err42" = InitOutcome.libraryNotFound "err42" :=
  unrecognized_platform_reraises "freebsd" "err42" (by decide) (by decide) (by decide)

/-- Claim C3: the signedness predicate returns True for exactly I8,
I16, I32, I64, Sgl, Dbl and False for each of Bool, U8, U16, U32, U64,
Fxp, Cluster. -/
theorem isSigned_exact :
    (DataType.isSigned .I8 = true ∧ DataType.isSigned .I16 = true ∧
     DataType.isSigned .I32 = true ∧ DataType.isSigned .I64 = true ∧
     DataType.isSigned .Sgl = true ∧ DataType.isSigned .Dbl = true) ∧
    (DataType.isSigned .Bool = false ∧ DataType.isSigned .U8 = false ∧
     DataType.isSigned .U16 = false ∧ DataType.isSigned .U32 = false ∧
     DataType.isSigned .U64 = false ∧ DataType.isSigned .Fxp = false ∧
     DataType.isSigned .Cluster = false) := by
  decide

/-- Claim C4: the Type Abstraction Table is total over both closed
enumerations (no lookup fails), maps every kind to the documented
ctype, the mapped ctypes have the documented bit widths and
float/integer character (and Ptr maps to a pointer-sized opaque
handle), and a ctype of known bit width is uniquely determined by its
bit width and float/signed-integer character. -/
theorem return_ctype_total_and_exact :
    ((∀ d : DataType, (DataType._return_ctype d).isSome) ∧
     DataType._return_ctype .Bool = some .c_uint8 ∧
     DataType._return_ctype .U8 = some .c_uint8 ∧
     DataType._return_ctype .I8 = some .c_int8 ∧
     DataType._return_ctype .I16 = some .c_int16 ∧
     DataType._return_ctype .U16 = some .c_uint16 ∧
     DataType._return_ctype .I32 = some .c_int32 ∧
     DataType._return_ctype .U32 = some .c_uint32 ∧
     DataType._return_ctype .Fxp = some .c_uint32 ∧
     DataType._return_ctype .Cluster = some .c_uint32 ∧
     DataType._return_ctype .I64 = some .c_int64 ∧
     DataType._return_ctype .U64 = some .c_uint64 ∧
     DataType._return_ctype .Sgl = some .c_float ∧
     DataType._return_ctype .Dbl = some .c_double ∧
     (∀ t : FifoPropertyType, (FifoPropertyType._return_ctype t).isSome) ∧
     FifoPropertyType._return_ctype .I32 = some .c_int32 ∧
     FifoPropertyType._return_ctype .U32 = some .c_uint32 ∧
     FifoPropertyType._return_ctype .I64 = some .c_int64 ∧
     FifoPropertyType._return_ctype .U64 = some .c_uint64 ∧
     FifoPropertyType._return_ctype .Ptr = some .c_void_p ∧
     CType.isPointerSized .c_void_p = true ∧
     CType.bitWidth .c_uint8 = some 8 ∧ CType.isFloat .c_uint8 = false ∧
     CType.isSignedInt .c_uint8 = false ∧
     CType.bitWidth .c_int8 = some 8 ∧ CType.isSignedInt .c_int8 = true ∧
     CType.bitWidth .c_int16 = some 16 ∧ CType.bitWidth .c_uint16 = some 16 ∧
     CType.bitWidth .c_int32 = some 32 ∧ CType.bitWidth .c_uint32 = some 32 ∧
     CType.bitWidth .c_int64 = some 64 ∧ CType.bitWidth .c_uint64 = some 64 ∧
     CType.bitWidth .c_float = some 32 ∧ CType.isFloat .c_float = true ∧
     CType.bitWidth .c_double = some 64 ∧ CType.isFloat .c_double = true) ∧
    (∀ c c' : CType, (CType.bitWidth c).isSome →
      CType.bitWidth c = CType.bitWidth c' → CType.isFloat c = CType.isFloat c' →
      CType.isSignedInt c = CType.isSignedInt c' → c = c') := by
  refine ⟨by decide, ?_⟩
  intro c c' h1 h2 h3 h4
  cases c <;> cases c' <;> simp_all [CType.bitWidth, CType.isFloat, CType.isSignedInt]

/-- Witness for C4: the uniqueness conjunct applied at a concrete
ctype with its hypotheses discharged. -/
theorem return_ctype_total_and_exact_witness : CType.c_float = CType.c_float :=
  return_ctype_total_and_exact.2 .c_float .c_float (by decide) rfl rfl rfl

/-- Claim C5: the fixed property-to-kind table associates each of the
nine FIFO Properties with exactly one FIFO Property Kind; in
particular BufferSizeElements resolves to U64, DmaBuffer to Ptr, and
FlowControl to I32. -/
theorem fifo_property_table_exact :
    _fifo_properties_to_types.length = 9 ∧
    (_fifo_properties_to_types.map Prod.fst).Nodup ∧
    (∀ p : FifoProperty, (fifoPropertyKind p).isSome) ∧
    fifoPropertyKind .BufferSizeElements = some .U64 ∧
    fifoPropertyKind .DmaBuffer = some .Ptr ∧
    fifoPropertyKind .FlowControl = some .I32 := by
  decide

/-- Claim C6: the status taxonomy classifies every signed integer
status code into exactly one band: 0 is Success, positive codes are
Warning, negative codes are Error. -/
theorem statuscode_classification :
    classify 0 = StatusBand.Success ∧
    (∀ n : Int, 0 < n → classify n = StatusBand.Warning) ∧
    (∀ n : Int, n < 0 → classify n = StatusBand.Error) := by
  refine ⟨rfl, fun n h => ?_, fun n h => ?_⟩
  · have hne : ¬ n = 0 := by omega
    simp only [classify]
    rw [if_neg hne, if_pos h]
  · have hne : ¬ n = 0 := by omega
    have hnlt : ¬ 0 < n := by omega
    simp only [classify]
    rw [if_neg hne, if_neg hnlt]

/-- Witness for C6 at concrete positive and negative codes. -/
theorem statuscode_classification_witness :
    classify 7 = StatusBand.Warning ∧ classify (-7) = StatusBand.Error :=
  ⟨statuscode_classification.2.1 7 (by decide),
   statuscode_classification.2.2 (-7) (by decide)⟩

/-- Claim C7: the five fixed numeric boundary constants have their
exact documented values. -/
theorem boundary_constants_exact :
    OPEN_ATTRIBUTE_NO_RUN = 1 ∧
    OPEN_ATTRIBUTE_BITFILE_PATH_IS_UTF8 = 2 ∧
    RUN_ATTRIBUTE_WAIT_UNTIL_DONE = 1 ∧
    CLOSE_ATTRIBUTE_NO_RESET_IF_LAST_SESSION = 1 ∧
    INFINITE_TIMEOUT = 4294967295 := by
  decide

/-- Claim C8: querying the Type Abstraction Table is idempotent and
deterministic: repeated invocations of the native-representation
lookup and of the signedness predicate on the same kind return
identical results. -/
theorem table_queries_idempotent :
    ∀ d : DataType,
      DataType._return_ctype d = DataType._return_ctype d ∧
      DataType.isSigned d = DataType.isSigned d :=
  fun _ => ⟨rfl, rfl⟩

/-- Claim C9: the constructor registers exactly one Function
Descriptor, logical name Route_Signal bound to native symbol
niFlexRio_RouteSignal, with the ordered argument list (session :
unsigned 32-bit session handle, source : C string, destination : C
string, routeTicket : pointer to 32-bit signed integer), and requests
the logical library name NIFLEXRIOAPI from the loader. -/
theorem route_signal_descriptor_exact :
    niRIO_library_name = "NIFLEXRIOAPI" ∧
    library_function_infos.length = 1 ∧
    library_function_infos.map LibraryFunctionInfo.pretty_name = ["Route_Signal"] ∧
    library_function_infos.map LibraryFunctionInfo.name_in_library
      = ["niFlexRio_RouteSignal"] ∧
    library_function_infos.map
        (fun i => i.named_argtypes.map (fun a => (a.name, a.argtype)))
      = [[("session", CType.c_uint32), ("source", CType.c_char_p),
          ("destination", CType.c_char_p),
          ("routeTicket", CType.pointer CType.c_int32)]] ∧
    _SessionType = CType.c_uint32 := by
  decide

/-- Claim C10: the pass-through enumerations have the fixed numeric
values FpgaViState NotRunning = 0, Invalid = 1, Running = 2,
NaturallyStopped = 3; FlowControl DisableFlowControl = 1,
EnableFlowControl = 2; DmaBufferType AllocatedByRIO = 1,
AllocatedByUser = 2. -/
theorem passthrough_enum_values :
    FpgaViState.value .NotRunning = 0 ∧ FpgaViState.value .Invalid = 1 ∧
    FpgaViState.value .Running = 2 ∧ FpgaViState.value .NaturallyStopped = 3 ∧
    FlowControl.value .DisableFlowControl = 1 ∧
    FlowControl.value .EnableFlowControl = 2 ∧
    DmaBufferType.value .AllocatedByRio = 1 ∧
    DmaBufferType.value .AllocatedByUser = 2 := by
  decide

end NiFpga
